import Mathlib

/-!
Shallow embedding of the connection-management and data-relay core of the
hello_client application (src/hello_client.c, src/hello_client.h).

Machine integers are modelled as Nat with explicit reduction modulo 2^8,
2^16 or 2^32 exactly where the C code stores into a UINT8 / UINT16 / UINT32.
The ROM connection-multiplexer collaborator (blecm_FindConMux /
blecm_FindFreeConMux / blecm_AddConMux / blecm_DelConMux) is not part of
this repository; it is modelled from the spec (section 4.1
ConnectionSlotTable: linear scan, first-free allocation, bounded table).
Outbound calls to the radio / GATT / security collaborators are modelled as
an emitted list of commands.
-/

namespace HelloClient

/-! ### Constants from src/hello_client.c and src/hello_client.h -/

def NVRAM_ID_HOST_LIST : Nat := 0x10

def CONNECT_ANY : Nat := 0x01

def CONNECT_HELLO_SENSOR : Nat := 0x02

def SMP_PAIRING : Nat := 0x04

def SMP_ERASE_KEY : Nat := 0x08

def HELLO_CLIENT_MAX_PERIPHERALS : Nat := 4

def CENTRAL_ROLE : Nat := 0

def PERIPHERAL_ROLE : Nat := 1

def HANDLE_HELLO_CLIENT_DATA_VALUE : Nat := 0x2a

def HANDLE_HELLO_CLIENT_CLIENT_CONFIGURATION_DESCRIPTOR : Nat := 0x2b

/-- Modelled from the spec: the client-configuration notification bit
(bit0 = notify); the constant CCC_NOTIFICATION comes from an SDK header
outside src/. -/
def CCC_NOTIFICATION : Nat := 1

/-- Modelled from the spec: the client-configuration indication bit
(bit1 = indicate); the constant CCC_INDICATION comes from an SDK header
outside src/. -/
def CCC_INDICATION : Nat := 2

/-- Modelled from the spec: the advertisement data type of a complete
128-bit service UUID list field; the constant ADV_SERVICE_UUID128_COMP
comes from an SDK header outside src/ (standard AD type 0x07). -/
def ADV_SERVICE_UUID128_COMP : Nat := 0x07

/-- Modelled from the spec: the maximum allowed advertisement payload
length; the constant HCIULP_MAX_DATA_LENGTH comes from an SDK header
outside src/ (31 bytes for a legacy advertisement). -/
def HCIULP_MAX_DATA_LENGTH : Nat := 31

/-- Modelled from the spec: the 16-byte target service UUID. The array
hello_service is initialised at src/hello_client.c line 84 from
UUID_HELLO_SERVICE, defined in hello_sensor.h which is outside src/;
the bytes are the hello sensor vendor-specific service UUID.  Only its
identity as a fixed 16-byte constant matters to the claims. -/
def hello_service : List Nat :=
  [0x23, 0x20, 0x56, 0x7c, 0x05, 0xcf, 0x6e, 0xb4,
   0xc3, 0x41, 0x77, 0x28, 0x51, 0x82, 0x7e, 0x1b]

/-- Modelled from the spec: nonzero encryption policy.  The configuration
field hello_client_cfg.encr_required is SECURITY_ENABLED | SECURITY_REQUEST
(src/hello_client.c line 260); the SDK values are outside src/ but the
policy is nonzero, which is all the code tests. -/
def encr_required : Nat := 3

/-- Modelled from the spec: SMP initiator role constant (SDK header). -/
def LESMP_ROLE_INITIATOR : Nat := 1

/-- Modelled from the spec: SMP responder role constant (SDK header). -/
def LESMP_ROLE_RESPONDERS : Nat := 2

/-- Modelled from the spec: disconnect reason used at
src/hello_client.c line 525 (BT error code, SDK header). -/
def BT_ERROR_CODE_CONNECTION_TERMINATED_BY_LOCAL_HOST : Nat := 0x16

/-- Modelled from the spec: discoverability mode Off (SDK enum). -/
def NO_DISCOVERABLE : Nat := 0

/-- Modelled from the spec: high-duty undirected discoverable mode (SDK enum). -/
def HIGH_UNDIRECTED_DISCOVERABLE : Nat := 1

/-- Modelled from the spec: scan mode Off (SDK enum). -/
def NO_SCAN : Nat := 0

/-- Modelled from the spec: low-duty scan mode (SDK enum). -/
def LOW_SCAN : Nat := 1

/-- Modelled from the spec: high-duty scan mode (SDK enum). -/
def HIGH_SCAN : Nat := 2

/-- Modelled from the spec: high-duty connection-establishment mode (SDK enum). -/
def HIGH_CONN : Nat := 2

/-! ### Data model -/

/-- One connection slot: the merged view of one blecm connection-mux entry
(occupancy and connection handle) together with the application's
dev_info[i] copy (role, peer address) and the smp_info[i] role field set by
the application.  The remaining bytes of EMCONINFO_DEVINFO / LESMP_INFO are
collaborator-owned opaque data never read back by the core and are not
modelled. -/
structure Slot where
  occupied : Bool
  connHandle : Nat
  role : Nat
  peerAddr : List Nat
  smpRole : Nat
deriving DecidableEq, Repr

/-- A freed or never-used slot (all fields zeroed, as by memset). -/
def emptySlot : Slot :=
  { occupied := false, connHandle := 0, role := 0, peerAddr := [], smpRole := 0 }

/-- Commands the core issues to its radio / GATT / security / storage
collaborators. -/
inductive Command where
  | disconnect (reason : Nat)
  | startPairing
  | sendWriteReq (handle : Nat) (bytes : List Nat)
  | connParamUpdateReq (minInt maxInt latency timeout : Nat)
  | setAdvDuringConnEnable (b : Bool)
  | discoverable (mode : Nat)
  | scan (mode : Nat)
  | conn (mode : Nat) (addr : List Nat) (addrType : Nat)
  | cenAdvReportCb
  | sendNotification (handle : Nat) (data : List Nat)
  | sendIndication (handle : Nat) (data : List Nat)
  | sendHandleValueConf
  | setPtrConMux (handle : Nat)
  | clientHandleReset
  | cenConnDown
  | removeAllBondInfo
deriving DecidableEq, Repr

/-- The application state tAPP_STATE (src/hello_client.c lines 325-345),
together with the connection-mux table, the static variable
button_pushed_time of hello_client_interrupt_handler, and the NVRAM
key-value store collaborator.  hostinfo is split into its two fields
(bdaddr and characteristic_client_configuration). -/
structure AppState where
  app_config : Nat
  app_timer_count : Nat
  app_fine_timer_count : Nat
  handle_to_central : Nat
  num_peripherals : Nat
  slots : List Slot
  hostinfo_bdaddr : List Nat
  hostinfo_config : Nat
  button_pushed_time : Nat
  nvram : List (Nat × List Nat)
deriving DecidableEq, Repr

/-! ### Connection-mux table operations

Modelled from the spec: the blecm connection-mux collaborator (section 4.1
ConnectionSlotTable).  find is a linear scan for the first occupied entry
with the given handle; allocation takes the first free entry; deletion
zeroes the entry. -/

/-- Modelled from the spec: blecm_FindConMux followed by blecm_DelConMux —
free the first occupied slot holding the given handle, leaving the table
unchanged when no slot holds it. -/
def evictFirst (h : Nat) : List Slot → List Slot
  | [] => []
  | sl :: rest =>
    if sl.occupied && sl.connHandle == h then emptySlot :: rest
    else sl :: evictFirst h rest

/-- Modelled from the spec: blecm_FindFreeConMux followed by writing the
dev_info / smp_info copies and blecm_AddConMux — place the new slot at the
first free index, returning none when the table is full. -/
def allocFirstFree (newSl : Slot) : List Slot → Option (List Slot)
  | [] => none
  | sl :: rest =>
    if !sl.occupied then some (newSl :: rest)
    else (allocFirstFree newSl rest).map (sl :: ·)

/-- Modelled from the spec: blecm_FindConMux followed by the memset and
blecm_DelConMux of connection_down — find the first occupied slot holding
the given handle, returning the slot found (its role is read before it is
zeroed) together with the table with that slot freed. -/
def freeFirst (h : Nat) : List Slot → Option (Slot × List Slot)
  | [] => none
  | sl :: rest =>
    if sl.occupied && sl.connHandle == h then some (sl, emptySlot :: rest)
    else (freeFirst h rest).map (fun p => (p.1, sl :: p.2))

/-! ### NVRAM collaborator -/

/-- Modelled from the spec: persist(key, bytes) of the key-value blob-store
collaborator (bleprofile_WriteNVRAM). -/
def nvramWrite (store : List (Nat × List Nat)) (id : Nat) (bytes : List Nat) :
    List (Nat × List Nat) :=
  (id, bytes) :: store.filter (fun p => p.1 ≠ id)

/-- Modelled from the spec: load(key) of the key-value blob-store
collaborator (bleprofile_ReadNVRAM). -/
def nvramRead (store : List (Nat × List Nat)) (id : Nat) : Option (List Nat) :=
  (store.find? (fun p => p.1 == id)).map (fun p => p.2)

/-- The packed HOSTINFO record as a byte list: 6-byte bdaddr followed by
the little-endian 16-bit client configuration value. -/
def hostinfoBytes (s : AppState) : List Nat :=
  s.hostinfo_bdaddr ++ [s.hostinfo_config % 256, s.hostinfo_config / 256 % 256]

/-! ### Event handlers translated from src/hello_client.c -/

/-- The slot content installed by connection_up at the free index: the
dev_info / smp_info copies (src/hello_client.c lines 529-536) together
with the smpRole assignment of the role branches (lines 541 and 563). -/
def newConnSlot (con_handle role : Nat) (peerAddr : List Nat) : Slot :=
  { occupied := true, connHandle := con_handle, role := role,
    peerAddr := peerAddr,
    smpRole := if role == CENTRAL_ROLE then LESMP_ROLE_INITIATOR
               else LESMP_ROLE_RESPONDERS }

/-- hello_client_connection_up (src/hello_client.c lines 505-590).  The
connection handle, the local role of the link and the peer address arrive
from the radio collaborator (emconinfo).  The stale mux entry for the
handle is deleted first; then a free entry is sought; on a full table the
core instructs a disconnect.  When the local role is CENTRAL_ROLE the
peripheral counter is incremented (encr_required is nonzero, so pairing is
started); otherwise the link is the central peer and handle_to_central is
recorded. -/
def hello_client_connection_up (s : AppState) (con_handle : Nat) (role : Nat)
    (peerAddr : List Nat) : AppState × List Command :=
  match allocFirstFree (newConnSlot con_handle role peerAddr)
      (evictFirst con_handle s.slots) with
  | none =>
    ({ s with slots := evictFirst con_handle s.slots },
     [Command.disconnect BT_ERROR_CODE_CONNECTION_TERMINATED_BY_LOCAL_HOST])
  | some slots2 =>
    let s1 := { s with slots := slots2 }
    let roleBranch :=
      if role == CENTRAL_ROLE then
        ({ s1 with num_peripherals := (s1.num_peripherals + 1) % 256 },
         if encr_required == 0 then
           [Command.sendWriteReq HANDLE_HELLO_CLIENT_CLIENT_CONFIGURATION_DESCRIPTOR [1, 0]]
         else
           [Command.startPairing])
      else
        ({ s1 with handle_to_central := con_handle },
         [Command.connParamUpdateReq 100 116 0 500])
    let s2 := roleBranch.1
    let tail :=
      if s2.num_peripherals < HELLO_CLIENT_MAX_PERIPHERALS then
        if s2.handle_to_central == 0 then
          [Command.setAdvDuringConnEnable true,
           Command.discoverable HIGH_UNDIRECTED_DISCOVERABLE]
        else []
      else []
    (s2, roleBranch.2 ++ tail)

/-- hello_client_connection_down (src/hello_client.c lines 593-640).  An
unknown handle is ignored.  For a found slot the role is read, the central
handle is cleared when the link was the central peer, the slot is zeroed
and freed, and num_peripherals is decremented unconditionally (UINT8
wraparound modelled by + 255 mod 256). -/
def hello_client_connection_down (s : AppState) (con_handle : Nat) :
    AppState × List Command :=
  match freeFirst con_handle s.slots with
  | none => (s, [])
  | some (sl, slots1) =>
    let cmds1 :=
      if s.app_config &&& SMP_ERASE_KEY ≠ 0 then [Command.removeAllBondInfo] else []
    let roleBranch :=
      if sl.role == PERIPHERAL_ROLE then
        ({ s with handle_to_central := 0 }, [Command.setAdvDuringConnEnable true])
      else
        (s, [Command.clientHandleReset, Command.cenConnDown])
    let s1 := roleBranch.1
    let s2 := { s1 with slots := slots1,
                        num_peripherals := (s1.num_peripherals + 255) % 256 }
    let tail :=
      if s2.num_peripherals < HELLO_CLIENT_MAX_PERIPHERALS then
        [Command.scan LOW_SCAN]
      else []
    (s2, cmds1 ++ roleBranch.2 ++ tail)

/-- hello_client_process_data_from_peripheral (src/hello_client.c lines
798-812).  Forwarding is gated solely on the persisted client
configuration bits; the payload is truncated to 20 bytes. -/
def hello_client_process_data_from_peripheral (s : AppState) (data : List Nat) :
    List Command :=
  if s.hostinfo_config &&& CCC_NOTIFICATION ≠ 0 then
    [Command.setPtrConMux s.handle_to_central,
     Command.sendNotification HANDLE_HELLO_CLIENT_DATA_VALUE
       (data.take (if data.length < 20 then data.length else 20))]
  else if s.hostinfo_config &&& CCC_INDICATION ≠ 0 then
    [Command.setPtrConMux s.handle_to_central,
     Command.sendIndication HANDLE_HELLO_CLIENT_DATA_VALUE
       (data.take (if data.length < 20 then data.length else 20))]
  else []

/-- hello_client_notification_handler (src/hello_client.c lines 814-820). -/
def hello_client_notification_handler (s : AppState) (data : List Nat) :
    List Command :=
  hello_client_process_data_from_peripheral s data

/-- hello_client_indication_handler (src/hello_client.c lines 822-830):
forward, then send the handle-value confirmation unconditionally. -/
def hello_client_indication_handler (s : AppState) (data : List Nat) :
    List Command :=
  hello_client_process_data_from_peripheral s data ++ [Command.sendHandleValueConf]

/-- hello_client_write_handler (src/hello_client.c lines 835-866).  The
attribute handle and value come from the GATT collaborator; the result is
the new state and the handler's return code (0 = accept, 0x80 = reject).
A 2-byte write to the client configuration descriptor decodes the value
little-endian into the UINT16 hostinfo field and persists the HOSTINFO
record; a write to the data value is accepted with no state change; any
other write is rejected. -/
def hello_client_write_handler (s : AppState) (handle : Nat) (payload : List Nat) :
    AppState × Nat :=
  if payload.length == 2 &&
     handle == HANDLE_HELLO_CLIENT_CLIENT_CONFIGURATION_DESCRIPTOR then
    let cfg := payload.getD 0 0 % 256 + payload.getD 1 0 % 256 * 256
    let s1 := { s with hostinfo_config := cfg }
    let s2 := { s1 with nvram := nvramWrite s1.nvram NVRAM_ID_HOST_LIST (hostinfoBytes s1) }
    (s2, 0)
  else if handle == HANDLE_HELLO_CLIENT_DATA_VALUE then
    (s, 0)
  else
    (s, 0x80)

/-- The 12-byte literal payload sent on a short button press
(src/hello_client.c line 891, the characters of the client sample text). -/
def fromClientPayload : List Nat :=
  [70, 114, 111, 109, 32, 67, 108, 105, 101, 110, 116, 10]

/-- hello_client_interrupt_handler (src/hello_client.c lines 868-898).  On
a press (bit0 of value set) the current coarse tick is recorded in the
static button_pushed_time.  On a release with a nonzero recorded tick, a
hold longer than 5 ticks stops advertising and starts a high-duty scan;
otherwise, with a central link present, a short literal payload is
notified.  The tick subtraction is UINT32 arithmetic. -/
def hello_client_interrupt_handler (s : AppState) (value : Nat) :
    AppState × List Command :=
  if value &&& 1 ≠ 0 then
    ({ s with button_pushed_time := s.app_timer_count }, [])
  else if s.button_pushed_time ≠ 0 then
    if (s.app_timer_count + 4294967296 - s.button_pushed_time) % 4294967296 > 5 then
      (s, [Command.discoverable NO_DISCOVERABLE, Command.scan HIGH_SCAN])
    else if s.handle_to_central ≠ 0 then
      (s, [Command.setPtrConMux s.handle_to_central,
           Command.sendNotification HANDLE_HELLO_CLIENT_DATA_VALUE fromClientPayload])
    else (s, [])
  else (s, [])

/-- hello_client_app_timer (src/hello_client.c lines 651-665): the coarse
tick increments the UINT32 app_timer_count. -/
def hello_client_app_timer (s : AppState) : AppState :=
  { s with app_timer_count := (s.app_timer_count + 1) % 4294967296 }

/-- uuidMatch16 is the memcmp of 16 bytes at src/hello_client.c line 766:
the 16 bytes starting at the field payload are compared with
hello_service. -/
def uuidMatch16 (rem : List Nat) : Bool :=
  (List.range 16).all fun k => rem.getD k 0 == hello_service.getD k 0

/-- The advertisement parse loop of hello_client_advertisement_report
(src/hello_client.c lines 759-783), expressed on the remaining byte
suffix: read the field length and type at the front, match the 128-bit
complete service UUID field, otherwise advance past the field and stop at
the end of the data. -/
def advScanLoop (addr : List Nat) (addrType : Nat) (rem : List Nat) : List Command :=
  let len := rem.getD 0 0
  let val := rem.getD 1 0
  if len == 17 && val == ADV_SERVICE_UUID128_COMP && uuidMatch16 (rem.drop 2) then
    [Command.discoverable NO_DISCOVERABLE,
     Command.conn HIGH_CONN addr addrType,
     Command.scan NO_SCAN]
  else if rem.length ≤ len + 1 then []
  else advScanLoop addr addrType (rem.drop (len + 1))
termination_by rem.length
decreasing_by
  simp only [List.length_drop]
  omega

/-- hello_client_advertisement_report (src/hello_client.c lines 728-785):
discard over-long reports, hand the report to the central-module
collaborator, and when the connect-to-hello-sensor policy bit is set run
the field scan. -/
def hello_client_advertisement_report (s : AppState) (addr : List Nat)
    (addrType : Nat) (data : List Nat) : List Command :=
  if HCIULP_MAX_DATA_LENGTH < data.length then []
  else
    Command.cenAdvReportCb ::
      (if s.app_config &&& CONNECT_HELLO_SENSOR ≠ 0 then
        advScanLoop addr addrType data
      else [])

/-! ### Events and the step function -/

/-- Events delivered by the collaborators (spec section 6). -/
inductive Event where
  | connUp (handle role : Nat) (peer : List Nat)
  | connDown (handle : Nat)
  | writeReceived (handle : Nat) (payload : List Nat)
  | notification (data : List Nat)
  | indication (data : List Nat)
  | button (value : Nat)
  | timerTick
deriving DecidableEq, Repr

/-- Dispatch one event to its handler. -/
def step (s : AppState) : Event → AppState × List Command
  | Event.connUp h r p => hello_client_connection_up s h r p
  | Event.connDown h => hello_client_connection_down s h
  | Event.writeReceived h pl => ((hello_client_write_handler s h pl).1, [])
  | Event.notification d => (s, hello_client_notification_handler s d)
  | Event.indication d => (s, hello_client_indication_handler s d)
  | Event.button v => hello_client_interrupt_handler s v
  | Event.timerTick => (hello_client_app_timer s, [])

/-- Run a sequence of events, keeping the state. -/
def run (s : AppState) : List Event → AppState
  | [] => s
  | e :: es => run (step s e).1 es

/-- The state after hello_client_create (src/hello_client.c lines 388-502):
everything zeroed by memset, then app_config set to
CONNECT_HELLO_SENSOR | SMP_PAIRING; the mux table has
HELLO_CLIENT_MAX_PERIPHERALS entries. -/
def initState : AppState :=
  { app_config := CONNECT_HELLO_SENSOR ||| SMP_PAIRING,
    app_timer_count := 0,
    app_fine_timer_count := 0,
    handle_to_central := 0,
    num_peripherals := 0,
    slots := [emptySlot, emptySlot, emptySlot, emptySlot],
    hostinfo_bdaddr := [0, 0, 0, 0, 0, 0],
    hostinfo_config := 0,
    button_pushed_time := 0,
    nvram := [] }

/-! ### Derived definitions used by the verification -/

/-! ### Helper predicates on commands -/

/-- Recogniser for the handle-value confirmation command. -/
def isConf : Command → Bool
  | Command.sendHandleValueConf => true
  | _ => false

/-- Recogniser for a notification send command. -/
def isNotif : Command → Bool
  | Command.sendNotification _ _ => true
  | _ => false

/-- Recogniser for a connect command. -/
def isConn : Command → Bool
  | Command.conn _ _ _ => true
  | _ => false

/-- Two slots are handle-compatible when they are not both live with the
same connection handle. -/
def SlotRel (a b : Slot) : Prop :=
  a.occupied = true → b.occupied = true → a.connHandle ≠ b.connHandle

/-- Every connection handle maps to at most one live slot. -/
def HandleUnique (ss : List Slot) : Prop :=
  ss.Pairwise SlotRel

/-- No live slot of the table holds the given handle. -/
def NoHandle (ss : List Slot) (h : Nat) : Prop :=
  ∀ sl ∈ ss, sl.occupied = true → sl.connHandle ≠ h

structure AdvField where
  typ : Nat
  payload : List Nat
deriving DecidableEq, Repr

def serializeFields : List AdvField → List Nat
  | [] => []
  | f :: fs => (f.payload.length + 1) :: f.typ :: (f.payload ++ serializeFields fs)

def fieldMatchesB (f : AdvField) : Bool :=
  (f.payload.length + 1 == 17) && (f.typ == ADV_SERVICE_UUID128_COMP) &&
    uuidMatch16 f.payload

/-- A reachable state with no central link but the persisted notification
bit set: a central connects, writes 0x0003 to the client configuration
descriptor, and disconnects. -/
def c2State : AppState :=
  run initState
    [Event.connUp 0x41 PERIPHERAL_ROLE [1, 2, 3, 4, 5, 6],
     Event.writeReceived HANDLE_HELLO_CLIENT_CLIENT_CONFIGURATION_DESCRIPTOR [3, 0],
     Event.connDown 0x41]

/-- Modelled from the spec: the ambient connection-mux context semantics
of the radio/GATT collaborator.  blecm_SetPtrConMux switches the ambient
context to the given connection handle, and every subsequent send —
including bleprofile_sendHandleValueConf, whose spec interface is
send_confirmation(handle) — acts on the current context (see the source
comment at src/hello_client.c line 801: the pointer is changed to the
central context because the send goes out on a different connection).
confContext returns the connection handle in effect at the first
handle-value confirmation of a command stream, given the context at
handler entry (the link the triggering event arrived on). -/
def confContext (ctx : Nat) : List Command → Option Nat
  | [] => none
  | Command.sendHandleValueConf :: _ => some ctx
  | Command.setPtrConMux h :: rest => confContext h rest
  | _ :: rest => confContext ctx rest

/-- A reachable state with a live central link (handle 0x41), a live
peripheral link (handle 0x42) and the persisted notification bit set: we
connect to the sensor as central, a remote central connects, and it
writes 0x0001 to the client configuration descriptor. -/
def c10State : AppState :=
  run initState
    [Event.connUp 0x42 CENTRAL_ROLE [1, 2, 3, 4, 5, 6],
     Event.connUp 0x41 PERIPHERAL_ROLE [6, 5, 4, 3, 2, 1],
     Event.writeReceived HANDLE_HELLO_CLIENT_CLIENT_CONFIGURATION_DESCRIPTOR [1, 0]]

/-- The press/release pair where the press is recorded while the coarse
tick counter equals 0: press, six ticks, release. -/
def c9PressAtZero : AppState × List Command :=
  step (run (step initState (Event.button 1)).1 (List.replicate 6 Event.timerTick))
    (Event.button 0)

/-- The same press/release pair shifted by one tick: press at tick 1,
release at tick 7 (held = 6). -/
def c9PressAtOne : AppState × List Command :=
  step (run (step (run initState [Event.timerTick]) (Event.button 1)).1
          (List.replicate 6 Event.timerTick))
    (Event.button 0)

/-! ### C1 -/

/-- C1: a remote central connects (local role PERIPHERAL_ROLE, no
increment) and then disconnects (unconditional decrement): the UINT8
peripheral counter wraps below zero to 255, violating both bounds of the
claimed invariant (0 ≤ num_peripherals ≤ 4). -/
theorem c1_num_peripherals_underflow :
    (run initState [Event.connUp 0x40 PERIPHERAL_ROLE [1, 2, 3, 4, 5, 6],
                    Event.connDown 0x40]).num_peripherals = 255 := by
  decide

/-! ### C2 -/

/-- C2 counterexample: in the reachable state c2State no central link
exists (handle_to_central = 0), yet relaying a one-byte payload issues a
send_notification command (directed at handle 0) — the relay is not a
no-op. -/
theorem c2_counterexample :
    c2State.handle_to_central = 0 ∧
    hello_client_process_data_from_peripheral c2State [0xAA] =
      [Command.setPtrConMux 0,
       Command.sendNotification HANDLE_HELLO_CLIENT_DATA_VALUE [0xAA]] := by
  decide

/-- C2 amended: the relay is gated solely on the persisted
client-configuration bits, not on central existence — when neither the
notification bit nor the indication bit is set, relaying any payload
issues no command. -/
theorem c2_relay_noop_iff_ccc_clear (s : AppState) (data : List Nat)
    (hn : s.hostinfo_config &&& CCC_NOTIFICATION = 0)
    (hi : s.hostinfo_config &&& CCC_INDICATION = 0) :
    hello_client_process_data_from_peripheral s data = [] := by
  unfold hello_client_process_data_from_peripheral
  simp [hn, hi]

/-- Witness for c2_relay_noop_iff_ccc_clear at the initial state and a
concrete payload. -/
theorem c2_relay_noop_iff_ccc_clear_witness :
    initState.hostinfo_config &&& CCC_NOTIFICATION = 0 ∧
    initState.hostinfo_config &&& CCC_INDICATION = 0 ∧
    hello_client_process_data_from_peripheral initState [1, 2, 3] = [] :=
  ⟨by decide, by decide,
   c2_relay_noop_iff_ccc_clear initState [1, 2, 3] (by decide) (by decide)⟩

/-! ### C5 -/

/-- C5: a write to the client-configuration descriptor whose payload
length is not 2, and a write to any attribute other than the
client-configuration descriptor and the data value, are rejected with the
0x80 write-not-permitted code and leave the state (hostinfo and NVRAM
included) unchanged. -/
theorem c5_write_rejected_unchanged (s : AppState) (handle : Nat)
    (payload : List Nat)
    (h : (handle = HANDLE_HELLO_CLIENT_CLIENT_CONFIGURATION_DESCRIPTOR ∧
          payload.length ≠ 2) ∨
         (handle ≠ HANDLE_HELLO_CLIENT_CLIENT_CONFIGURATION_DESCRIPTOR ∧
          handle ≠ HANDLE_HELLO_CLIENT_DATA_VALUE)) :
    hello_client_write_handler s handle payload = (s, 0x80) := by
  unfold hello_client_write_handler
  rcases h with ⟨rfl, hlen⟩ | ⟨h1, h2⟩
  · simp [hlen, HANDLE_HELLO_CLIENT_CLIENT_CONFIGURATION_DESCRIPTOR,
          HANDLE_HELLO_CLIENT_DATA_VALUE]
  · simp [h1, h2]

/-- Witness for c5_write_rejected_unchanged: a one-byte configuration
write and a write to an unknown attribute, both at the initial state. -/
theorem c5_write_rejected_unchanged_witness :
    hello_client_write_handler initState
      HANDLE_HELLO_CLIENT_CLIENT_CONFIGURATION_DESCRIPTOR [1] = (initState, 0x80) ∧
    hello_client_write_handler initState 0x16 [1, 0] = (initState, 0x80) :=
  ⟨c5_write_rejected_unchanged initState _ [1] (Or.inl ⟨rfl, by decide⟩),
   c5_write_rejected_unchanged initState 0x16 [1, 0] (Or.inr ⟨by decide, by decide⟩)⟩

/-! ### C6 -/

/-- C6: with the notification bit set (indication bit clear) and a live
central link, relaying a payload issues exactly one send_notification to
the data-value characteristic on the central link, carrying the first
min(len, 20) bytes of the payload. -/
theorem c6_notify_truncation (s : AppState) (data : List Nat)
    (hn : s.hostinfo_config &&& CCC_NOTIFICATION ≠ 0)
    (hi : s.hostinfo_config &&& CCC_INDICATION = 0)
    (hc : s.handle_to_central ≠ 0) :
    hello_client_process_data_from_peripheral s data =
      [Command.setPtrConMux s.handle_to_central,
       Command.sendNotification HANDLE_HELLO_CLIENT_DATA_VALUE (data.take 20)] ∧
    (hello_client_process_data_from_peripheral s data).countP isNotif = 1 ∧
    (data.take 20).length = min data.length 20 := by
  have htrunc : data.take (if data.length < 20 then data.length else 20) =
      data.take 20 := by
    by_cases hlt : data.length < 20
    · simp only [hlt, if_pos, List.take_length]
      exact (List.take_of_length_le (Nat.le_of_lt hlt)).symm
    · simp [hlt]
  have hmain : hello_client_process_data_from_peripheral s data =
      [Command.setPtrConMux s.handle_to_central,
       Command.sendNotification HANDLE_HELLO_CLIENT_DATA_VALUE (data.take 20)] := by
    unfold hello_client_process_data_from_peripheral
    rw [if_pos hn, htrunc]
  refine ⟨hmain, ?_, ?_⟩
  · rw [hmain]; rfl
  · simp [List.length_take, Nat.min_comm]

/-- Witness for c6_notify_truncation: a 25-byte payload yields one
notification carrying its first 20 bytes. -/
theorem c6_notify_truncation_witness :
    hello_client_process_data_from_peripheral
        { initState with hostinfo_config := 1, handle_to_central := 0x41 }
        (List.range 25) =
      [Command.setPtrConMux 0x41,
       Command.sendNotification HANDLE_HELLO_CLIENT_DATA_VALUE (List.range 20)] ∧
    ((List.range 25).take 20).length = min (List.range 25).length 20 :=
  have h := c6_notify_truncation
    { initState with hostinfo_config := 1, handle_to_central := 0x41 }
    (List.range 25) (by decide) (by decide) (by decide)
  ⟨by rw [h.1]; decide, h.2.2⟩

/-! ### C3 -/

theorem mem_evictFirst {h : Nat} {sl : Slot} {ss : List Slot}
    (hm : sl ∈ evictFirst h ss) : sl = emptySlot ∨ sl ∈ ss := by
  induction ss with
  | nil => simp [evictFirst] at hm
  | cons a rest ih =>
    unfold evictFirst at hm
    by_cases hcond : a.occupied && a.connHandle == h
    · rw [if_pos hcond] at hm
      rcases List.mem_cons.mp hm with rfl | htail
      · exact Or.inl rfl
      · exact Or.inr (List.mem_cons_of_mem a htail)
    · rw [if_neg hcond] at hm
      rcases List.mem_cons.mp hm with rfl | htail
      · exact Or.inr (List.mem_cons_self _ _)
      · rcases ih htail with he | hmem
        · exact Or.inl he
        · exact Or.inr (List.mem_cons_of_mem a hmem)

theorem noHandle_evictFirst {h : Nat} {ss : List Slot}
    (hu : HandleUnique ss) : NoHandle (evictFirst h ss) h := by
  induction ss with
  | nil => intro sl hm; simp [evictFirst] at hm
  | cons a rest ih =>
    rcases (List.pairwise_cons.mp hu) with ⟨hrel, htail⟩
    intro sl hm hocc
    unfold evictFirst at hm
    by_cases hcond : a.occupied && a.connHandle == h
    · rw [if_pos hcond] at hm
      rcases List.mem_cons.mp hm with rfl | hmem
      · intro hhandle
        simp [emptySlot] at hocc
      · have ha : a.occupied = true ∧ a.connHandle = h := by
          simpa using hcond
        have := hrel sl hmem ha.1 hocc
        rw [ha.2] at this
        exact fun hcontra => this hcontra.symm
    · rw [if_neg hcond] at hm
      rcases List.mem_cons.mp hm with rfl | hmem
      · intro hhandle
        apply hcond
        simp [hocc, hhandle]
      · exact ih htail sl hmem hocc

theorem handleUnique_evictFirst {h : Nat} {ss : List Slot}
    (hu : HandleUnique ss) : HandleUnique (evictFirst h ss) := by
  induction ss with
  | nil => simpa [evictFirst, HandleUnique] using hu
  | cons a rest ih =>
    rcases (List.pairwise_cons.mp hu) with ⟨hrel, htail⟩
    unfold evictFirst
    by_cases hcond : a.occupied && a.connHandle == h
    · rw [if_pos hcond]
      apply List.pairwise_cons.mpr
      refine ⟨?_, htail⟩
      intro b _ hocc
      simp [emptySlot] at hocc
    · rw [if_neg hcond]
      apply List.pairwise_cons.mpr
      refine ⟨?_, ih htail⟩
      intro b hb
      rcases mem_evictFirst hb with rfl | hmem
      · intro _ hocc
        simp [emptySlot] at hocc
      · exact hrel b hmem

theorem mem_allocFirstFree {newSl : Slot} {ss ss2 : List Slot}
    (halloc : allocFirstFree newSl ss = some ss2) :
    ∀ sl ∈ ss2, sl = newSl ∨ sl ∈ ss := by
  induction ss generalizing ss2 with
  | nil => simp [allocFirstFree] at halloc
  | cons a rest ih =>
    unfold allocFirstFree at halloc
    by_cases hcond : !a.occupied
    · rw [if_pos hcond] at halloc
      injection halloc with heq
      subst heq
      intro sl hm
      rcases List.mem_cons.mp hm with rfl | hmem
      · exact Or.inl rfl
      · exact Or.inr (List.mem_cons_of_mem a hmem)
    · rw [if_neg hcond] at halloc
      rcases hrec : allocFirstFree newSl rest with _ | rest2
      · rw [hrec] at halloc
        simp at halloc
      · rw [hrec] at halloc
        simp only [Option.map_some'] at halloc
        injection halloc with heq
        subst heq
        intro sl hm
        rcases List.mem_cons.mp hm with rfl | hmem
        · exact Or.inr (List.mem_cons_self _ _)
        · rcases ih hrec sl hmem with hn | hmem2
          · exact Or.inl hn
          · exact Or.inr (List.mem_cons_of_mem a hmem2)

theorem handleUnique_allocFirstFree {newSl : Slot} {ss ss2 : List Slot}
    (halloc : allocFirstFree newSl ss = some ss2)
    (hno : NoHandle ss newSl.connHandle)
    (hu : HandleUnique ss) : HandleUnique ss2 := by
  induction ss generalizing ss2 with
  | nil => simp [allocFirstFree] at halloc
  | cons a rest ih =>
    rcases (List.pairwise_cons.mp hu) with ⟨hrel, htail⟩
    unfold allocFirstFree at halloc
    by_cases hcond : !a.occupied
    · rw [if_pos hcond] at halloc
      injection halloc with heq
      subst heq
      apply List.pairwise_cons.mpr
      refine ⟨?_, htail⟩
      intro b hb _ hocc
      have hbno := hno b (List.mem_cons_of_mem a hb) hocc
      exact fun hcontra => hbno hcontra.symm
    · rw [if_neg hcond] at halloc
      rcases hrec : allocFirstFree newSl rest with _ | rest2
      · rw [hrec] at halloc
        simp at halloc
      · rw [hrec] at halloc
        simp only [Option.map_some'] at halloc
        injection halloc with heq
        subst heq
        apply List.pairwise_cons.mpr
        have hnorest : NoHandle rest newSl.connHandle := by
          intro b hb
          exact hno b (List.mem_cons_of_mem a hb)
        refine ⟨?_, ih hrec hnorest htail⟩
        intro b hb
        rcases mem_allocFirstFree hrec b hb with rfl | hmem
        · intro hocca hoccb
          have := hno a (List.mem_cons_self _ _) hocca
          exact this
        · exact hrel b hmem

theorem mem_freeFirst {h : Nat} {found : Slot} {ss ss2 : List Slot}
    (hfree : freeFirst h ss = some (found, ss2)) :
    ∀ sl ∈ ss2, sl = emptySlot ∨ sl ∈ ss := by
  induction ss generalizing ss2 with
  | nil => simp [freeFirst] at hfree
  | cons a rest ih =>
    unfold freeFirst at hfree
    by_cases hcond : a.occupied && a.connHandle == h
    · rw [if_pos hcond] at hfree
      injection hfree with heq
      rw [Prod.mk.injEq] at heq
      rcases heq with ⟨-, heq2⟩
      subst heq2
      intro sl hm
      rcases List.mem_cons.mp hm with rfl | hmem
      · exact Or.inl rfl
      · exact Or.inr (List.mem_cons_of_mem a hmem)
    · rw [if_neg hcond] at hfree
      rcases hrec : freeFirst h rest with _ | p
      · rw [hrec] at hfree
        simp at hfree
      · rw [hrec] at hfree
        simp only [Option.map_some'] at hfree
        injection hfree with heq
        rw [Prod.mk.injEq] at heq
        rcases heq with ⟨heq1, heq2⟩
        subst heq2
        intro sl hm
        rcases List.mem_cons.mp hm with rfl | hmem
        · exact Or.inr (List.mem_cons_self _ _)
        · rcases ih (by rw [hrec, ← heq1]) sl hmem with he | hmem2
          · exact Or.inl he
          · exact Or.inr (List.mem_cons_of_mem a hmem2)

theorem handleUnique_freeFirst {h : Nat} {found : Slot} {ss ss2 : List Slot}
    (hfree : freeFirst h ss = some (found, ss2))
    (hu : HandleUnique ss) : HandleUnique ss2 := by
  induction ss generalizing ss2 with
  | nil => simp [freeFirst] at hfree
  | cons a rest ih =>
    rcases (List.pairwise_cons.mp hu) with ⟨hrel, htail⟩
    unfold freeFirst at hfree
    by_cases hcond : a.occupied && a.connHandle == h
    · rw [if_pos hcond] at hfree
      injection hfree with heq
      rw [Prod.mk.injEq] at heq
      rcases heq with ⟨-, heq2⟩
      subst heq2
      apply List.pairwise_cons.mpr
      refine ⟨?_, htail⟩
      intro b _ hocc
      simp [emptySlot] at hocc
    · rw [if_neg hcond] at hfree
      rcases hrec : freeFirst h rest with _ | p
      · rw [hrec] at hfree
        simp at hfree
      · rw [hrec] at hfree
        simp only [Option.map_some'] at hfree
        injection hfree with heq
        rw [Prod.mk.injEq] at heq
        rcases heq with ⟨heq1, heq2⟩
        subst heq2
        apply List.pairwise_cons.mpr
        refine ⟨?_, ih (by rw [hrec, ← heq1]) htail⟩
        intro b hb
        rcases mem_freeFirst
            (show freeFirst h rest = some (p.1, p.2) by rw [hrec]) b hb with rfl | hmem
        · intro _ hocc
          simp [emptySlot] at hocc
        · exact hrel b hmem

theorem connection_up_slots (s : AppState) (h r : Nat) (p : List Nat) :
    (hello_client_connection_up s h r p).1.slots =
      match allocFirstFree (newConnSlot h r p) (evictFirst h s.slots) with
      | none => evictFirst h s.slots
      | some slots2 => slots2 := by
  unfold hello_client_connection_up
  split
  · rfl
  · split <;> rfl

theorem handleUnique_connection_up (s : AppState) (h r : Nat) (p : List Nat)
    (hu : HandleUnique s.slots) :
    HandleUnique (hello_client_connection_up s h r p).1.slots := by
  rw [connection_up_slots]
  rcases halloc : allocFirstFree (newConnSlot h r p) (evictFirst h s.slots) with _ | slots2
  · exact handleUnique_evictFirst hu
  · exact handleUnique_allocFirstFree halloc (noHandle_evictFirst hu)
      (handleUnique_evictFirst hu)

theorem connection_down_slots (s : AppState) (h : Nat) :
    (hello_client_connection_down s h).1.slots =
      match freeFirst h s.slots with
      | none => s.slots
      | some p => p.2 := by
  unfold hello_client_connection_down
  rcases hfree : freeFirst h s.slots with _ | q
  · rfl
  · obtain ⟨sl, slots1⟩ := q
    rfl

theorem handleUnique_connection_down (s : AppState) (h : Nat)
    (hu : HandleUnique s.slots) :
    HandleUnique (hello_client_connection_down s h).1.slots := by
  rw [connection_down_slots]
  rcases hfree : freeFirst h s.slots with _ | p
  · exact hu
  · exact handleUnique_freeFirst (by rw [hfree]) hu

theorem write_handler_slots (s : AppState) (h : Nat) (pl : List Nat) :
    (hello_client_write_handler s h pl).1.slots = s.slots := by
  unfold hello_client_write_handler
  split
  · rfl
  · split <;> rfl

theorem interrupt_handler_slots (s : AppState) (v : Nat) :
    (hello_client_interrupt_handler s v).1.slots = s.slots := by
  unfold hello_client_interrupt_handler
  split
  · rfl
  · split
    · split
      · rfl
      · split <;> rfl
    · rfl

theorem handleUnique_step (s : AppState) (e : Event)
    (hu : HandleUnique s.slots) : HandleUnique (step s e).1.slots := by
  cases e with
  | connUp h r p => exact handleUnique_connection_up s h r p hu
  | connDown h => exact handleUnique_connection_down s h hu
  | writeReceived h pl =>
    show HandleUnique (hello_client_write_handler s h pl).1.slots
    rw [write_handler_slots]
    exact hu
  | notification d => exact hu
  | indication d => exact hu
  | button v =>
    show HandleUnique (hello_client_interrupt_handler s v).1.slots
    rw [interrupt_handler_slots]
    exact hu
  | timerTick => exact hu

theorem handleUnique_run (s : AppState) (evs : List Event)
    (hu : HandleUnique s.slots) : HandleUnique (run s evs).slots := by
  induction evs generalizing s with
  | nil => exact hu
  | cons e es ih => exact ih (step s e).1 (handleUnique_step s e hu)

/-- C3 counterexample: after two central-peer connection-up events with
distinct handles (both links with local role PERIPHERAL_ROLE, i.e. the
remote peer is a central), the reachable state holds two live
Central-role slots — the core does not enforce at most one Central-role
slot. -/
theorem c3_counterexample :
    ((run initState [Event.connUp 0x41 PERIPHERAL_ROLE [1, 2, 3, 4, 5, 6],
                     Event.connUp 0x42 PERIPHERAL_ROLE [6, 5, 4, 3, 2, 1]]).slots.countP
      fun sl => sl.occupied && sl.role == PERIPHERAL_ROLE) = 2 := by
  decide

/-- C3 amended: in every state reachable from the initial state, every
connection handle maps to at most one live slot — connection_up evicts the
stale mapping for its handle before allocating, so re-registration of a
handle never duplicates a slot. -/
theorem c3_handle_maps_to_at_most_one_slot (evs : List Event) :
    HandleUnique (run initState evs).slots := by
  apply handleUnique_run
  apply List.pairwise_cons.mpr
  constructor
  · intro b _ hocc
    simp [initState, emptySlot] at hocc
  · apply List.pairwise_cons.mpr
    constructor
    · intro b _ hocc
      simp [initState, emptySlot] at hocc
    · apply List.pairwise_cons.mpr
      constructor
      · intro b _ hocc
        simp [initState, emptySlot] at hocc
      · apply List.pairwise_cons.mpr
        constructor
        · intro b _ hocc
          simp [initState, emptySlot] at hocc
        · exact List.Pairwise.nil

/-! ### C4 -/

/-- C4: a 2-byte write to the client-configuration descriptor decodes the
value little-endian (byte 0 low), succeeds, sets the notify preference to
bit0 and the indicate preference to bit1 of the low byte, and persists the
HOSTINFO record whose configuration bytes equal the input payload, so a
subsequent load returns exactly those bytes. -/
theorem c4_ccc_write_decode_persist_roundtrip (s : AppState) (b0 b1 : Nat)
    (hb0 : b0 < 256) (hb1 : b1 < 256) :
    (hello_client_write_handler s
        HANDLE_HELLO_CLIENT_CLIENT_CONFIGURATION_DESCRIPTOR [b0, b1]).2 = 0 ∧
    (hello_client_write_handler s
        HANDLE_HELLO_CLIENT_CLIENT_CONFIGURATION_DESCRIPTOR [b0, b1]).1.hostinfo_config =
      b0 + 256 * b1 ∧
    ((hello_client_write_handler s
        HANDLE_HELLO_CLIENT_CLIENT_CONFIGURATION_DESCRIPTOR [b0, b1]).1.hostinfo_config &&&
        CCC_NOTIFICATION ≠ 0 ↔ b0 % 2 = 1) ∧
    ((hello_client_write_handler s
        HANDLE_HELLO_CLIENT_CLIENT_CONFIGURATION_DESCRIPTOR [b0, b1]).1.hostinfo_config &&&
        CCC_INDICATION ≠ 0 ↔ b0 / 2 % 2 = 1) ∧
    nvramRead (hello_client_write_handler s
        HANDLE_HELLO_CLIENT_CLIENT_CONFIGURATION_DESCRIPTOR [b0, b1]).1.nvram
        NVRAM_ID_HOST_LIST =
      some (s.hostinfo_bdaddr ++ [b0, b1]) := by
  have hres : hello_client_write_handler s
      HANDLE_HELLO_CLIENT_CLIENT_CONFIGURATION_DESCRIPTOR [b0, b1] =
      ({ s with hostinfo_config := b0 + 256 * b1,
                nvram := nvramWrite s.nvram NVRAM_ID_HOST_LIST
                  (s.hostinfo_bdaddr ++ [b0, b1]) }, 0) := by
    unfold hello_client_write_handler
    simp only [List.length_cons, List.length_nil, List.getD, beq_self_eq_true,
      Bool.and_self, if_true, List.getElem?_cons_zero, List.getElem?_cons_succ,
      Nat.zero_add, Option.getD_some]
    have hcfg : b0 % 256 + b1 % 256 * 256 = b0 + 256 * b1 := by omega
    have hlow : (b0 + 256 * b1) % 256 = b0 := by omega
    have hhigh : (b0 + 256 * b1) / 256 % 256 = b1 := by omega
    simp [hostinfoBytes, hcfg, hlow, hhigh]
  refine ⟨by rw [hres], by rw [hres], ?_, ?_, ?_⟩
  · rw [hres]
    show (b0 + 256 * b1) &&& CCC_NOTIFICATION ≠ 0 ↔ b0 % 2 = 1
    rw [CCC_NOTIFICATION, Nat.and_one_is_mod]
    omega
  · rw [hres]
    show (b0 + 256 * b1) &&& CCC_INDICATION ≠ 0 ↔ b0 / 2 % 2 = 1
    rw [CCC_INDICATION, show (2 : Nat) = 2 ^ 1 from rfl, Nat.and_two_pow]
    rw [Nat.testBit_to_div_mod]
    rw [show (2 : Nat) ^ 1 = 2 from rfl]
    have hdiv : (b0 + 256 * b1) / 2 % 2 = b0 / 2 % 2 := by omega
    rw [hdiv]
    by_cases hd : b0 / 2 % 2 = 1 <;> simp [hd]
  · rw [hres]
    simp [nvramRead, nvramWrite]

/-- Witness for c4_ccc_write_decode_persist_roundtrip at the initial state
with the payload 0x03, 0x00: the write succeeds, both preference bits
are set, and the persisted record carries exactly those bytes. -/
theorem c4_ccc_write_decode_persist_roundtrip_witness :
    (hello_client_write_handler initState
        HANDLE_HELLO_CLIENT_CLIENT_CONFIGURATION_DESCRIPTOR [3, 0]).2 = 0 ∧
    ((hello_client_write_handler initState
        HANDLE_HELLO_CLIENT_CLIENT_CONFIGURATION_DESCRIPTOR [3, 0]).1.hostinfo_config &&&
        CCC_NOTIFICATION ≠ 0) ∧
    ((hello_client_write_handler initState
        HANDLE_HELLO_CLIENT_CLIENT_CONFIGURATION_DESCRIPTOR [3, 0]).1.hostinfo_config &&&
        CCC_INDICATION ≠ 0) ∧
    nvramRead (hello_client_write_handler initState
        HANDLE_HELLO_CLIENT_CLIENT_CONFIGURATION_DESCRIPTOR [3, 0]).1.nvram
        NVRAM_ID_HOST_LIST =
      some (initState.hostinfo_bdaddr ++ [3, 0]) :=
  have h := c4_ccc_write_decode_persist_roundtrip initState 3 0 (by decide) (by decide)
  ⟨h.1, h.2.2.1.mpr (by decide), h.2.2.2.1.mpr (by decide), h.2.2.2.2⟩

/-! ### C8 -/

/-- C8: a press records the current coarse tick; a release classified by
the handler (stored press tick nonzero) starts discovery when the hold
exceeded 5 ticks, sends the literal sample payload over a live central
link when the hold was at most 5 ticks, and emits nothing on a short hold
with no central link. -/
theorem c8_button_classification (u s : AppState)
    (harmed : s.button_pushed_time ≠ 0)
    (hle : s.button_pushed_time ≤ s.app_timer_count)
    (hlt : s.app_timer_count < 4294967296) :
    hello_client_interrupt_handler u 1 =
      ({ u with button_pushed_time := u.app_timer_count }, []) ∧
    (5 < s.app_timer_count - s.button_pushed_time →
      (hello_client_interrupt_handler s 0).2 =
        [Command.discoverable NO_DISCOVERABLE, Command.scan HIGH_SCAN]) ∧
    (s.app_timer_count - s.button_pushed_time ≤ 5 → s.handle_to_central ≠ 0 →
      (hello_client_interrupt_handler s 0).2 =
        [Command.setPtrConMux s.handle_to_central,
         Command.sendNotification HANDLE_HELLO_CLIENT_DATA_VALUE fromClientPayload]) ∧
    (s.app_timer_count - s.button_pushed_time ≤ 5 → s.handle_to_central = 0 →
      (hello_client_interrupt_handler s 0).2 = []) := by
  have hmod : (s.app_timer_count + 4294967296 - s.button_pushed_time) % 4294967296 =
      s.app_timer_count - s.button_pushed_time := by
    omega
  refine ⟨?_, ?_, ?_, ?_⟩
  · unfold hello_client_interrupt_handler
    simp
  · intro hheld
    unfold hello_client_interrupt_handler
    rw [hmod] at *
    simp [harmed, hheld]
  · intro hheld hcen
    unfold hello_client_interrupt_handler
    rw [hmod] at *
    simp [harmed, Nat.not_lt.mpr hheld, hcen]
  · intro hheld hcen
    unfold hello_client_interrupt_handler
    rw [hmod] at *
    simp [harmed, Nat.not_lt.mpr hheld, hcen]

/-- Witness for c8_button_classification: held = 6 starts discovery,
held = 3 with a central link sends the sample, held = 3 without a central
link emits nothing; the press records the tick. -/
theorem c8_button_classification_witness :
    (hello_client_interrupt_handler
        { initState with button_pushed_time := 2, app_timer_count := 8 } 0).2 =
      [Command.discoverable NO_DISCOVERABLE, Command.scan HIGH_SCAN] ∧
    (hello_client_interrupt_handler
        { initState with button_pushed_time := 2, app_timer_count := 5,
                         handle_to_central := 0x41 } 0).2 =
      [Command.setPtrConMux 0x41,
       Command.sendNotification HANDLE_HELLO_CLIENT_DATA_VALUE fromClientPayload] ∧
    (hello_client_interrupt_handler
        { initState with button_pushed_time := 2, app_timer_count := 5 } 0).2 = [] :=
  ⟨((c8_button_classification initState
      { initState with button_pushed_time := 2, app_timer_count := 8 }
      (by decide) (by decide) (by decide)).2.1 (by decide)),
   ((c8_button_classification initState
      { initState with button_pushed_time := 2, app_timer_count := 5,
                       handle_to_central := 0x41 }
      (by decide) (by decide) (by decide)).2.2.1 (by decide) (by decide)),
   ((c8_button_classification initState
      { initState with button_pushed_time := 2, app_timer_count := 5 }
      (by decide) (by decide) (by decide)).2.2.2 (by decide) (by decide))⟩

/-! ### C9 -/

/-- C9 counterexample: a press recorded at coarse tick 0 is NOT classified
on release like a press at any other tick — the release after a tick-0
press emits nothing, while the identical pair shifted to press-tick 1
emits the start-discovery commands.  The handler distinguishes armed from
not-armed by the zero value of the stored press tick, not by an explicit
armed flag. -/
theorem c9_counterexample :
    c9PressAtZero.2 = [] ∧
    c9PressAtOne.2 = [Command.discoverable NO_DISCOVERABLE, Command.scan HIGH_SCAN] := by
  decide

/-- C9 amended: the classifier uses the zero value of the stored press
tick as its not-armed sentinel — a release with button_pushed_time = 0
emits no intent and changes nothing, and a press recorded while the coarse
tick counter equals 0 stores the sentinel itself, so it is treated as
never-pressed. -/
theorem c9_zero_sentinel (s : AppState) (h : s.button_pushed_time = 0) :
    hello_client_interrupt_handler s 0 = (s, []) ∧
    (s.app_timer_count = 0 →
      (hello_client_interrupt_handler s 1).1.button_pushed_time = 0) := by
  constructor
  · unfold hello_client_interrupt_handler
    simp [h]
  · intro h0
    unfold hello_client_interrupt_handler
    simp [h0]

/-- Witness for c9_zero_sentinel at the initial state. -/
theorem c9_zero_sentinel_witness :
    hello_client_interrupt_handler initState 0 = (initState, []) ∧
    (hello_client_interrupt_handler initState 1).1.button_pushed_time = 0 :=
  have h := c9_zero_sentinel initState (by decide)
  ⟨h.1, h.2 (by decide)⟩

/-! ### C10 -/

/-- C10 counterexample: in the reachable state c10State, an indication
arriving on the peripheral link 0x42 is forwarded (notification bit set),
and the single handle-value confirmation is issued in the ambient context
0x41 — the central link, switched to by the relay and never restored —
and not in the context 0x42 of the originating peripheral.  This refutes
the claim that the confirmation goes back to the originating peripheral
regardless of whether the payload was forwarded. -/
theorem c10_counterexample :
    c10State.handle_to_central = 0x41 ∧
    (hello_client_indication_handler c10State [5]).countP isConf = 1 ∧
    confContext 0x42 (hello_client_indication_handler c10State [5]) =
      some c10State.handle_to_central ∧
    c10State.handle_to_central ≠ 0x42 := by
  decide

/-- C10 amended: every indication produces exactly one handle-value
confirmation, independent of the persisted preference; but the
confirmation is issued on the ambient connection context — when either
preference bit is set the relay has just switched that context to the
central link, so the confirmation is directed at handle_to_central rather
than the originating peripheral, and only when neither bit is set does it
go out on the originating link's context. -/
theorem c10_one_confirmation_ambient_context (s : AppState) (data : List Nat)
    (ctx : Nat) :
    (hello_client_indication_handler s data).countP isConf = 1 ∧
    confContext ctx (hello_client_indication_handler s data) =
      some (if s.hostinfo_config &&& CCC_NOTIFICATION ≠ 0 ∨
                s.hostinfo_config &&& CCC_INDICATION ≠ 0
            then s.handle_to_central else ctx) := by
  unfold hello_client_indication_handler hello_client_process_data_from_peripheral
  by_cases hn : s.hostinfo_config &&& CCC_NOTIFICATION ≠ 0
  · rw [if_pos hn]
    refine ⟨rfl, ?_⟩
    rw [if_pos (Or.inl hn)]
    rfl
  · rw [if_neg hn]
    by_cases hi : s.hostinfo_config &&& CCC_INDICATION ≠ 0
    · rw [if_pos hi]
      refine ⟨rfl, ?_⟩
      rw [if_pos (Or.inr hi)]
      rfl
    · rw [if_neg hi]
      refine ⟨rfl, ?_⟩
      rw [if_neg (not_or.mpr ⟨hn, hi⟩)]
      rfl

/-! ### C7 -/

theorem advScanLoop_nil (a : List Nat) (t : Nat) : advScanLoop a t [] = [] := by
  rw [advScanLoop]
  rfl

theorem uuidMatch16_append (l rest : List Nat) (hlen : l.length = 16) :
    uuidMatch16 (l ++ rest) = uuidMatch16 l := by
  unfold uuidMatch16
  apply Bool.eq_iff_iff.mpr
  simp only [List.all_eq_true, List.mem_range]
  constructor
  · intro H k hk
    have hg := H k hk
    rwa [List.getD_append _ _ _ _ (by omega)] at hg
  · intro H k hk
    rw [List.getD_append _ _ _ _ (by omega)]
    exact H k hk

theorem uuidMatch16_eq (l : List Nat) (hlen : l.length = 16)
    (hm : uuidMatch16 l = true) : l = hello_service := by
  have hs : hello_service.length = 16 := by decide
  apply List.ext_getElem (by rw [hlen, hs])
  intro n h1 h2
  have hn16 : n < 16 := by rw [hlen] at h1; exact h1
  have hb := (List.all_eq_true.mp hm) n (List.mem_range.mpr hn16)
  simp only [beq_iff_eq] at hb
  rwa [List.getD_eq_getElem l 0 h1, List.getD_eq_getElem hello_service 0 h2] at hb

theorem advScanLoop_serialize_cons (a : List Nat) (t : Nat) (f : AdvField)
    (fs : List AdvField) :
    advScanLoop a t (serializeFields (f :: fs)) =
      if fieldMatchesB f then
        [Command.discoverable NO_DISCOVERABLE, Command.conn HIGH_CONN a t,
         Command.scan NO_SCAN]
      else advScanLoop a t (serializeFields fs) := by
  simp only [serializeFields]
  rw [advScanLoop]
  simp only [List.getD_cons_zero, List.getD_cons_succ, List.drop_succ_cons,
    List.drop_zero, List.length_cons, List.length_append]
  have helse : ∀ S : List Nat,
      (if f.payload.length + S.length + 1 + 1 ≤ f.payload.length + 1 + 1 then []
       else advScanLoop a t (List.drop f.payload.length (f.payload ++ S))) =
        advScanLoop a t S := by
    intro S
    rcases S with _ | ⟨c, cs⟩
    · rw [if_pos (by simp), advScanLoop_nil]
    · rw [if_neg (by simp only [List.length_cons]; omega), List.drop_left]
  by_cases hpl : f.payload.length = 16
  · rw [uuidMatch16_append _ _ hpl]
    rw [show ((f.payload.length + 1 == 17) && (f.typ == ADV_SERVICE_UUID128_COMP) &&
        uuidMatch16 f.payload) = fieldMatchesB f from rfl]
    by_cases hb : fieldMatchesB f = true
    · rw [hb]
      simp
    · rw [Bool.not_eq_true] at hb
      rw [hb]
      rw [if_neg (show ¬(false = true) by simp), if_neg (show ¬(false = true) by simp)]
      exact helse (serializeFields fs)
  · have h17 : (f.payload.length + 1 == 17) = false := by
      simp only [beq_eq_false_iff_ne, ne_eq]
      omega
    have hfm : fieldMatchesB f = false := by
      unfold fieldMatchesB
      rw [h17, Bool.false_and, Bool.false_and]
    rw [h17, hfm, Bool.false_and, Bool.false_and]
    rw [if_neg (show ¬(false = true) by simp), if_neg (show ¬(false = true) by simp)]
    exact helse (serializeFields fs)

theorem advScanLoop_match (a : List Nat) (t : Nat) (fields : List AdvField)
    (hm : ∃ f ∈ fields, f.typ = ADV_SERVICE_UUID128_COMP ∧ f.payload = hello_service) :
    advScanLoop a t (serializeFields fields) =
      [Command.discoverable NO_DISCOVERABLE, Command.conn HIGH_CONN a t,
       Command.scan NO_SCAN] := by
  induction fields with
  | nil => simp at hm
  | cons f fs ih =>
    rw [advScanLoop_serialize_cons]
    by_cases hb : fieldMatchesB f = true
    · rw [hb]
      simp
    · rw [Bool.not_eq_true] at hb
      rw [hb, if_neg (show ¬(false = true) by simp)]
      apply ih
      rcases hm with ⟨g, hg, hgt, hgp⟩
      rcases List.mem_cons.mp hg with rfl | hgs
      · exfalso
        have hgm : fieldMatchesB g = true := by
          unfold fieldMatchesB
          rw [hgp, hgt]
          decide
        rw [hgm] at hb
        cases hb
      · exact ⟨g, hgs, hgt, hgp⟩

theorem advScanLoop_nomatch (a : List Nat) (t : Nat) (fields : List AdvField)
    (hne : ∀ f ∈ fields, f.typ = ADV_SERVICE_UUID128_COMP → f.payload ≠ hello_service) :
    advScanLoop a t (serializeFields fields) = [] := by
  induction fields with
  | nil => exact advScanLoop_nil a t
  | cons f fs ih =>
    rw [advScanLoop_serialize_cons]
    have hb : fieldMatchesB f = false := by
      cases hfb : fieldMatchesB f
      · rfl
      · exfalso
        unfold fieldMatchesB at hfb
        rcases (Bool.and_eq_true _ _).mp hfb with ⟨h12, hu⟩
        rcases (Bool.and_eq_true _ _).mp h12 with ⟨hl17, htyp⟩
        have hlen16 : f.payload.length = 16 := by
          simp only [beq_iff_eq] at hl17
          omega
        have htyp7 : f.typ = ADV_SERVICE_UUID128_COMP := by
          simpa only [beq_iff_eq] using htyp
        exact hne f (List.mem_cons_self _ _) htyp7 (uuidMatch16_eq f.payload hlen16 hu)
    rw [hb, if_neg (show ¬(false = true) by simp)]
    apply ih
    intro g hg
    exact hne g (List.mem_cons_of_mem f hg)

/-- C7: an advertisement report whose structured field list contains a
17-byte complete-128-bit-service-UUID field carrying the target UUID
byte-for-byte makes the core suppress advertising, issue exactly one
connect to the reporting peer and stop scanning; a report whose fields
carry only different UUIDs issues no connect. -/
theorem c7_adv_service_uuid_match (s : AppState) (addr : List Nat) (atype : Nat)
    (fields : List AdvField) :
    (s.app_config &&& CONNECT_HELLO_SENSOR ≠ 0 →
      (serializeFields fields).length ≤ HCIULP_MAX_DATA_LENGTH →
      (∃ f ∈ fields, f.typ = ADV_SERVICE_UUID128_COMP ∧ f.payload = hello_service) →
      hello_client_advertisement_report s addr atype (serializeFields fields) =
        [Command.cenAdvReportCb, Command.discoverable NO_DISCOVERABLE,
         Command.conn HIGH_CONN addr atype, Command.scan NO_SCAN] ∧
      (hello_client_advertisement_report s addr atype
          (serializeFields fields)).countP isConn = 1) ∧
    ((∀ f ∈ fields, f.typ = ADV_SERVICE_UUID128_COMP → f.payload ≠ hello_service) →
      (hello_client_advertisement_report s addr atype
          (serializeFields fields)).countP isConn = 0) := by
  constructor
  · intro hcfg hlen hm
    have hrep : hello_client_advertisement_report s addr atype (serializeFields fields) =
        Command.cenAdvReportCb :: advScanLoop addr atype (serializeFields fields) := by
      unfold hello_client_advertisement_report
      rw [if_neg (Nat.not_lt.mpr hlen), if_pos hcfg]
    constructor
    · rw [hrep, advScanLoop_match addr atype fields hm]
    · rw [hrep, advScanLoop_match addr atype fields hm]
      rfl
  · intro hne
    unfold hello_client_advertisement_report
    by_cases hlen : HCIULP_MAX_DATA_LENGTH < (serializeFields fields).length
    · rw [if_pos hlen]
      rfl
    · rw [if_neg hlen]
      by_cases hcfg : s.app_config &&& CONNECT_HELLO_SENSOR ≠ 0
      · rw [if_pos hcfg, advScanLoop_nomatch addr atype fields hne]
        rfl
      · rw [if_neg hcfg]
        rfl

/-- Witness for c7_adv_service_uuid_match: a one-field report carrying the
target UUID connects; a one-field report carrying an all-zero UUID does
not. -/
theorem c7_adv_service_uuid_match_witness :
    hello_client_advertisement_report initState [9, 9, 9, 9, 9, 9] 0
        (serializeFields [⟨ADV_SERVICE_UUID128_COMP, hello_service⟩]) =
      [Command.cenAdvReportCb, Command.discoverable NO_DISCOVERABLE,
       Command.conn HIGH_CONN [9, 9, 9, 9, 9, 9] 0, Command.scan NO_SCAN] ∧
    (hello_client_advertisement_report initState [8, 8, 8, 8, 8, 8] 0
        (serializeFields [⟨ADV_SERVICE_UUID128_COMP,
          List.replicate 16 0⟩])).countP isConn = 0 :=
  ⟨((c7_adv_service_uuid_match initState [9, 9, 9, 9, 9, 9] 0
      [⟨ADV_SERVICE_UUID128_COMP, hello_service⟩]).1 (by decide) (by decide)
      ⟨⟨ADV_SERVICE_UUID128_COMP, hello_service⟩, by decide, rfl, rfl⟩).1,
   (c7_adv_service_uuid_match initState [8, 8, 8, 8, 8, 8] 0
      [⟨ADV_SERVICE_UUID128_COMP, List.replicate 16 0⟩]).2 (by decide)⟩

end HelloClient
